import Mathlib

/-!
Verification of the event lifecycle and registration engine of the
Blood-Donation-Event-Map repository.

The JavaScript source is shallowly embedded in Lean:
* JS strings are modelled as `List Char` (`JStr`); the string helpers used by
  the source (`trim`, `split(/\s+/)`, `split(":")`, `toUpperCase`,
  `parseInt(_, 10)`) are modelled character by character.
* JS `Date` instants are modelled as `Int` milliseconds since the epoch with
  naive local time (the source uses naive local wall-clock time throughout);
  `setHours(h, m, s, ms)` becomes arithmetic relative to local midnight and,
  as in JS, out-of-range components roll over to neighbouring days.
* Mongoose documents become Lean structures; `await event.save()` becomes
  application of the `pre('save')` hook followed by replacing the stored
  value; controller request handlers become pure functions from request and
  stored state to a result plus the new stored state.  Failure responses
  (4xx statuses) become constructors of explicit result inductives.
-/

/-- JS strings, modelled as lists of characters. -/
abbrev JStr := List Char

/-- Coerce a Lean string literal into the `JStr` model. -/
def js (s : String) : JStr := s.toList

/-- JS `String.prototype.trim()`: drop leading and trailing whitespace. -/
def jsTrim (s : JStr) : JStr :=
  ((s.dropWhile Char.isWhitespace).reverse.dropWhile Char.isWhitespace).reverse

/-- Accumulating worker for `splitWs`; `cur` holds the (reversed) current token. -/
def splitWsAux (cur : JStr) (acc : List JStr) : JStr → List JStr
  | [] => if cur.isEmpty then acc.reverse else (cur.reverse :: acc).reverse
  | c :: rest =>
    if c.isWhitespace then
      if cur.isEmpty then splitWsAux [] acc rest
      else splitWsAux [] (cur.reverse :: acc) rest
    else splitWsAux (c :: cur) acc rest

/-- JS `s.split(/\s+/)` on strings without leading whitespace (the source only
applies it to trimmed strings): the maximal whitespace-free runs of `s`. -/
def splitWs (s : JStr) : List JStr := splitWsAux [] [] s

/-- Worker for `splitOnChar`; `cur` holds the (reversed) current segment. -/
def splitOnCharAux (sep : Char) (cur : JStr) : JStr → List JStr
  | [] => [cur.reverse]
  | c :: rest =>
    if c = sep then cur.reverse :: splitOnCharAux sep [] rest
    else splitOnCharAux sep (c :: cur) rest

/-- JS `s.split(sep)` for a single-character separator: keeps empty segments,
always returns at least one segment. -/
def splitOnChar (sep : Char) (s : JStr) : List JStr := splitOnCharAux sep [] s

/-- JS `String.prototype.toUpperCase()` (ASCII as used by the source). -/
def jsToUpper (s : JStr) : JStr := s.map Char.toUpper

/-- JS `String.prototype.toLowerCase()` (ASCII as used by the source). -/
def jsToLower (s : JStr) : JStr := s.map Char.toLower

/-- JS `parseInt(s, 10)`: skip leading whitespace, read an optional sign and
then the maximal run of leading decimal digits, ignoring any trailing
characters; `none` models `NaN` (no digits found). -/
def jsParseInt (s : JStr) : Option Int :=
  let t := s.dropWhile Char.isWhitespace
  let signAndRest : Int × JStr :=
    match t with
    | '-' :: rest => (-1, rest)
    | '+' :: rest => (1, rest)
    | _ => (1, t)
  let digits := signAndRest.2.takeWhile Char.isDigit
  if digits.isEmpty then none
  else some (signAndRest.1 * (digits.foldl (fun n c => n * 10 + (c.toNat - 48)) 0 : Nat))

/-! ## Naive local-time instants -/

/-- Milliseconds per minute. -/
def msPerMinute : Int := 60000
/-- Milliseconds per hour. -/
def msPerHour : Int := 3600000
/-- Milliseconds per day. -/
def msPerDay : Int := 86400000

/-- Local midnight of the day containing instant `t` (floor to a day). -/
def startOfDay (t : Int) : Int := msPerDay * (t.fdiv msPerDay)

/-- JS `d.setHours(h, m, s, ms)` on a naive local clock: replace the
time-of-day of `t`; out-of-range components roll over, as in JS. -/
def setTime (t h m s ms : Int) : Int :=
  startOfDay t + h * msPerHour + m * msPerMinute + s * 1000 + ms

/-! ## The controller's time parser
(`parseTimeStringToMinutes` / `parseEventTimeRange`,
`src/backend/controllers/eventController.js` lines 4-58). -/

/-- The two-character modifier string `"PM"`. -/
def pmStr : JStr := ['P', 'M']
/-- The two-character modifier string `"AM"`. -/
def amStr : JStr := ['A', 'M']

/-- Lines 9-17 of `eventController.js`: trim the input, split on whitespace
and take the first two tokens (`timePart`, `modifierRaw`); `none` when the
trimmed input is empty or a token is missing or empty. -/
def timeTokens (timeString : JStr) : Option (JStr × JStr) :=
  let trimmed := jsTrim timeString
  if trimmed.isEmpty then none
  else
    let parts := splitWs trimmed
    match parts[0]?, parts[1]? with
    | some timePart, some modifierRaw =>
      if timePart.isEmpty ∨ modifierRaw.isEmpty then none
      else some (timePart, modifierRaw)
    | _, _ => none

/-- Lines 19-27 of `eventController.js`: uppercase the modifier, split the
time part on `":"` (a missing minutes segment defaults to `"0"`), and
`parseInt` both components; `none` when either is `NaN`. -/
def readTimeComponents (timeString : JStr) : Option (Int × Int × JStr) :=
  match timeTokens timeString with
  | none => none
  | some (timePart, modifierRaw) =>
    let modifier := jsToUpper modifierRaw
    let segs := splitOnChar ':' timePart
    let hoursPart := (segs[0]?).getD []
    let minutesPart := (segs[1]?).getD ['0']
    match jsParseInt hoursPart, jsParseInt minutesPart with
    | some h, some m => some (h, m, modifier)
    | _, _ => none

/-- The 12-hour adjustment shared verbatim by both parsers
(`eventController.js` lines 29-35, `part_006` lines 166-172): `PM` with hour
below 12 adds 12, then `AM` with hour 12 becomes 0; any other modifier leaves
the hour untouched. -/
def adjustHour (modifier : JStr) (h0 : Int) : Int :=
  let h1 := if modifier = pmStr ∧ h0 < 12 then h0 + 12 else h0
  if modifier = amStr ∧ h1 = 12 then 0 else h1

/-- `parseTimeStringToMinutes` (`eventController.js` lines 4-38): minutes
since local midnight, with the 12-hour adjustments applied in source order.
The modifier is never validated: any second token is accepted. -/
def parseTimeStringToMinutes (timeString : JStr) : Option Int :=
  match readTimeComponents timeString with
  | none => none
  | some (h0, m, modifier) => some (adjustHour modifier h0 * 60 + m)

/-- `parseEventTimeRange` (`eventController.js` lines 40-58): split on `"-"`,
require exactly two segments, and parse both sides. -/
def parseEventTimeRange (eventTime : JStr) : Option (Int × Int) :=
  match splitOnChar '-' eventTime with
  | [p1, p2] =>
    match parseTimeStringToMinutes p1, parseTimeStringToMinutes p2 with
    | some s, some e => some (s, e)
    | _, _ => none
  | _ => none


/-! ## The Event data model (`src/unnamed/part_006`, the mongoose Event schema) -/

/-- The four event status tokens. -/
inductive EventStatus
  | upcoming
  | ongoing
  | completed
  | cancelled
deriving DecidableEq, Repr

/-- The three attendee status tokens. -/
inductive AttendeeStatus
  | registered
  | attended
  | cancelled
deriving DecidableEq, Repr

/-- One entry of the `attendees` array of the Event schema. -/
structure AttendeeRecord where
  donor : Nat
  registeredAt : Int
  status : AttendeeStatus
deriving DecidableEq, Repr

/-- Optional map coordinates (`locationCoordinates`); the numeric values play
no role in any verified property. -/
structure Coordinates where
  lat : Int
  lng : Int
deriving DecidableEq, Repr

/-- The Event document.  `organizer` and attendee `donor` ids are opaque
naturals; dates are naive-local-instant `Int`s; `endDate` is optional exactly
as in the schema (the save hook defaults it). -/
structure Event where
  organizer : Nat
  eventTitle : JStr
  organizationName : JStr
  eventDate : Int
  endDate : Option Int
  eventTime : JStr
  location : JStr
  locationCoordinates : Option Coordinates
  expectedCapacity : Int
  currentAttendees : Int
  bloodTypesNeeded : List JStr
  eventDescription : JStr
  eligibilityRequirements : List JStr
  contactEmail : JStr
  contactPhone : JStr
  status : EventStatus
  attendees : List AttendeeRecord
deriving DecidableEq, Repr

/-- The `isFull` virtual (`part_006` lines 124-126):
`currentAttendees >= expectedCapacity`. -/
def Event.isFull (e : Event) : Prop := e.expectedCapacity ≤ e.currentAttendees

instance (e : Event) : Decidable e.isFull :=
  inferInstanceAs (Decidable (e.expectedCapacity ≤ e.currentAttendees))

/-- Number of attendee records whose status is `registered` or `attended`
(the filter of the `pre('save')` hook, `part_006` lines 237-242). -/
def countActiveAttendees (l : List AttendeeRecord) : Int :=
  ((l.filter fun a =>
      a.status = AttendeeStatus.registered ∨ a.status = AttendeeStatus.attended).length : Nat)

/-- The `pre('save')` middleware (`part_006` lines 232-244): default a missing
`endDate` to `eventDate`, then recompute `currentAttendees` from the roster.
Every persisted write goes through this function. -/
def preSave (e : Event) : Event :=
  let e1 := if e.endDate.isNone then { e with endDate := some e.eventDate } else e
  { e1 with currentAttendees := countActiveAttendees e1.attendees }

/-! ## The model's status resolver
(`eventSchema.methods.updateStatus`, `part_006` lines 129-229). -/

/-- `parseTimePortion` (`part_006` lines 140-177): parse one side of the time
range and anchor it to `baseDate` via `setHours`.  `raw = none` models the JS
`undefined` segment; a missing minutes segment or an *empty* minutes segment
defaults to 0 (the JS conditional `timeSegments[1] ? parseInt(...) : 0`
treats the empty string as falsy). -/
def parseTimePortion (baseDate : Int) (raw : Option JStr) : Option Int :=
  match raw with
  | none => none
  | some r =>
    let cleaned := jsTrim r
    if cleaned.isEmpty then none
    else
      let parts := splitWs cleaned
      if parts.length < 2 then none
      else
        let timePart := (parts[0]?).getD []
        let modifier := jsToUpper ((parts[1]?).getD [])
        let segs := splitOnChar ':' timePart
        let minutesParsed : Option Int :=
          match segs[1]? with
          | some s2 => if s2.isEmpty then some 0 else jsParseInt s2
          | none => some 0
        match jsParseInt ((segs[0]?).getD []), minutesParsed with
        | some h0, some m => some (setTime baseDate (adjustHour modifier h0) m 0 0)
        | _, _ => none

/-- Lines 179-191 of `part_006`: split `eventTime` on `"-"`, trim the
segments, parse each side anchored to its date (`startOfEvent` resp.
`endOfEvent`), and when both sides parse with end not after start, push the
end instant one day later (midnight crossing). -/
def timeInstants (e : Event) : Option Int × Option Int :=
  let startOfEvent := e.eventDate
  let endOfEvent := e.endDate.getD e.eventDate
  if (jsTrim e.eventTime).isEmpty then (none, none)
  else
    let segments := (splitOnChar '-' e.eventTime).map jsTrim
    let s := parseTimePortion startOfEvent segments[0]?
    let en := parseTimePortion endOfEvent segments[1]?
    match s, en with
    | some sv, some ev =>
      if ev ≤ sv then (some sv, some (ev + msPerDay)) else (some sv, some ev)
    | _, _ => (s, en)

/-- `updateStatus` (`part_006` lines 129-229), as the pure status it returns:
`cancelled` is absorbing; with at least one parsed instant the event is
compared against `effectiveStart`/`effectiveEnd` (an unparsed start falls
back to the raw `eventDate` instant, an unparsed end to 23:59:59.999 of
`endDate`); with no parsed instant at all, date-only fallback. -/
def updateStatus (now : Int) (e : Event) : EventStatus :=
  if e.status = EventStatus.cancelled then EventStatus.cancelled
  else
    let startOfEvent := e.eventDate
    let endOfEvent := e.endDate.getD e.eventDate
    let ti := timeInstants e
    if ti.1.isSome ∨ ti.2.isSome then
      let effectiveStart := ti.1.getD startOfEvent
      let effectiveEnd := ti.2.getD (setTime endOfEvent 23 59 59 999)
      if now < effectiveStart then EventStatus.upcoming
      else if effectiveStart ≤ now ∧ now ≤ effectiveEnd then EventStatus.ongoing
      else EventStatus.completed
    else
      let startDay := setTime startOfEvent 0 0 0 0
      let endDay := setTime endOfEvent 23 59 59 999
      if now < startDay then EventStatus.upcoming
      else if endDay < now then EventStatus.completed
      else EventStatus.ongoing

/-- A skeleton event used to build concrete test instances; individual tests
override the fields they care about. -/
def baseEvent : Event where
  organizer := 10
  eventTitle := js "Community Drive"
  organizationName := js "Red Cross"
  eventDate := 20148 * 86400000
  endDate := some (20148 * 86400000)
  eventTime := js "9:00 AM - 5:00 PM"
  location := js "City Hall"
  locationCoordinates := none
  expectedCapacity := 50
  currentAttendees := 0
  bloodTypesNeeded := [js "O+"]
  eventDescription := js "Donate blood"
  eligibilityRequirements := []
  contactEmail := js "a@b.c"
  contactPhone := js "123"
  status := EventStatus.upcoming
  attendees := []


/-! ## Roster operations
(`registerForEvent`, `cancelRegistration`, `cancelEvent`,
`src/backend/controllers/eventController.js`). -/

/-- The role the identity collaborator attaches to a request. -/
inductive Role
  | donor
  | organizer
deriving DecidableEq, Repr

/-- Outcome of `registerForEvent` (`eventController.js` lines 664-717); the
`notFound` branch is resolved before the event is in hand and is not
modelled. -/
inductive RegResult
  | notDonor
  | eventFull
  | alreadyRegistered
  | success
deriving DecidableEq, Repr

/-- `registerForEvent` (`eventController.js` lines 664-717): only donors may
register; a full event (the `isFull` virtual) is rejected; a donor with *any*
existing attendee record — its status is never consulted — is rejected as
already registered; otherwise a `registered` record is appended and the event
saved. -/
def registerForEvent (now : Int) (userRole : Role) (userId : Nat) (e : Event) :
    RegResult × Event :=
  if userRole ≠ Role.donor then (RegResult.notDonor, e)
  else if e.isFull then (RegResult.eventFull, e)
  else if e.attendees.any (fun a => a.donor == userId) then (RegResult.alreadyRegistered, e)
  else
    (RegResult.success,
      preSave { e with
        attendees := e.attendees ++ [⟨userId, now, AttendeeStatus.registered⟩] })

/-- Outcome of `cancelRegistration` (`eventController.js` lines 722-757). -/
inductive CancelRegResult
  | notRegistered
  | success
deriving DecidableEq, Repr

/-- Set the status of the attendee record at position `i` to `cancelled`. -/
def cancelAttendeeAt : List AttendeeRecord → Nat → List AttendeeRecord
  | [], _ => []
  | a :: rest, 0 => { a with status := AttendeeStatus.cancelled } :: rest
  | a :: rest, n + 1 => a :: cancelAttendeeAt rest n

/-- `cancelRegistration` (`eventController.js` lines 722-757): find the first
attendee record of the requesting user (`findIndex`); reject only when none
exists; otherwise set that record's status to `cancelled` — without checking
whether it already is — and save. -/
def cancelRegistration (userId : Nat) (e : Event) : CancelRegResult × Event :=
  match e.attendees.findIdx? (fun a => a.donor == userId) with
  | none => (CancelRegResult.notRegistered, e)
  | some i =>
    (CancelRegResult.success, preSave { e with attendees := cancelAttendeeAt e.attendees i })

/-- Outcome of `cancelEvent` (`eventController.js` lines 568-625). -/
inductive CancelEventResult
  | notOrganizer
  | notOwner
  | alreadyCancelled
  | isCompleted
  | success
deriving DecidableEq, Repr

/-- `cancelEvent` (`eventController.js` lines 568-625): owner-only; rejected
when the stored status is already `cancelled` or is `completed`; otherwise
sets the event status to `cancelled`, moves every `registered` attendee to
`cancelled` (leaving `attended` untouched) and saves. -/
def cancelEvent (userRole : Role) (userId : Nat) (e : Event) : CancelEventResult × Event :=
  if userRole ≠ Role.organizer then (CancelEventResult.notOrganizer, e)
  else if e.organizer ≠ userId then (CancelEventResult.notOwner, e)
  else if e.status = EventStatus.cancelled then (CancelEventResult.alreadyCancelled, e)
  else if e.status = EventStatus.completed then (CancelEventResult.isCompleted, e)
  else
    (CancelEventResult.success,
      preSave { e with
        status := EventStatus.cancelled
        attendees := e.attendees.map fun a =>
          if a.status = AttendeeStatus.registered
          then { a with status := AttendeeStatus.cancelled } else a })

/-! ## Event creation (`createEvent`, `eventController.js` lines 63-207). -/

/-- The request body of `createEvent`.  String fields are `JStr` (empty =
falsy = missing); dates are optional instants (`new Date(...)` of an absent
field); `bloodTypesNeeded = none` models a missing/non-array body field. -/
structure CreateRequest where
  userRole : Role
  userId : Nat
  eventTitle : JStr
  organizationName : JStr
  startDate : Option Int
  endDate : Option Int
  legacyEventDate : Option Int
  eventTime : JStr
  location : JStr
  locationCoordinates : Option Coordinates
  expectedCapacity : Int
  bloodTypesNeeded : Option (List JStr)
  eventDescription : JStr
  eligibilityRequirements : Option (List JStr)
  contactEmail : JStr
  contactPhone : JStr
deriving Repr

/-- Outcome of `createEvent`; each rejection constructor is one of its 4xx
responses, in source order. -/
inductive CreateResult
  | notOrganizer
  | missingFields
  | badBloodTypes
  | duplicateTitle
  | pastDate
  | endBeforeStart
  | badTimeFormat
  | endNotAfterStart
  | created (e : Event)
deriving Repr

/-- The duplicate-title match (`eventController.js` lines 119-126): the
anchored case-insensitive regex built from the escaped, trimmed request title
matched against a stored title is whole-string equality up to case. -/
def titleMatches (storedTitle reqTitle : JStr) : Bool :=
  jsToLower storedTitle == jsToLower (jsTrim reqTitle)

/-- Lines 128-131 of `eventController.js`: some event with a matching title
whose freshly recomputed status (`updateStatus`) is `upcoming` or `ongoing`. -/
def hasActiveDuplicate (reqTitle : JStr) (events : List Event) (now : Int) : Bool :=
  (events.filter fun e => titleMatches e.eventTitle reqTitle).any fun e =>
    updateStatus now e = EventStatus.upcoming ∨ updateStatus now e = EventStatus.ongoing

/-- The document `Event.create` inserts for a valid request (lines 179-194),
after the save hook; status defaults to `upcoming`, attendees to `[]`. -/
def newEventOf (req : CreateRequest) (eventStartDate eventEndDate : Int) : Event :=
  preSave
    { organizer := req.userId
      eventTitle := req.eventTitle
      organizationName := req.organizationName
      eventDate := eventStartDate
      endDate := some eventEndDate
      eventTime := req.eventTime
      location := req.location
      locationCoordinates := req.locationCoordinates
      expectedCapacity := req.expectedCapacity
      currentAttendees := 0
      bloodTypesNeeded := (req.bloodTypesNeeded).getD []
      eventDescription := req.eventDescription
      eligibilityRequirements := (req.eligibilityRequirements).getD []
      contactEmail := req.contactEmail
      contactPhone := req.contactPhone
      status := EventStatus.upcoming
      attendees := [] }

/-- The response `createEvent` (`eventController.js` lines 63-207) chooses
for a request against the stored events.  Checks run in source order: role,
required fields, blood-type array, duplicate active title, start date not
before today (date-only), end date ordering, time format, same-day
end-after-start. -/
def createEventResult (req : CreateRequest) (events : List Event) (now : Int) :
    CreateResult :=
  if req.userRole ≠ Role.organizer then CreateResult.notOrganizer
  else
    let eventStartDate := req.startDate <|> req.legacyEventDate
    let eventEndDate := req.endDate <|> eventStartDate
    if req.eventTitle.isEmpty ∨ req.organizationName.isEmpty ∨
        eventStartDate.isNone ∨ eventEndDate.isNone ∨ req.eventTime.isEmpty ∨
        req.location.isEmpty ∨ req.expectedCapacity = 0 ∨
        req.bloodTypesNeeded.isNone ∨ req.eventDescription.isEmpty ∨
        req.contactEmail.isEmpty ∨ req.contactPhone.isEmpty then
      CreateResult.missingFields
    else if ((req.bloodTypesNeeded).getD []).isEmpty then
      CreateResult.badBloodTypes
    else if hasActiveDuplicate req.eventTitle events now then
      CreateResult.duplicateTitle
    else
      let sd := eventStartDate.getD 0
      let ed := eventEndDate.getD 0
      let eventDateObj := setTime sd 0 0 0 0
      let today := setTime now 0 0 0 0
      if eventDateObj < today then CreateResult.pastDate
      else
        let eventEndDateObj := setTime ed 0 0 0 0
        if eventEndDateObj < eventDateObj then CreateResult.endBeforeStart
        else
          match parseEventTimeRange req.eventTime with
          | none => CreateResult.badTimeFormat
          | some (startMinutes, endMinutes) =>
            if eventEndDateObj = eventDateObj ∧ endMinutes ≤ startMinutes then
              CreateResult.endNotAfterStart
            else CreateResult.created (newEventOf req sd ed)

/-- `createEvent` as a transition on the stored event collection: only the
`Event.create` call of the success path writes — the duplicate-title scan
evaluates `updateStatus` on its matches purely in memory and never saves
them — so the stored list either grows by the one new document or is
untouched. -/
def createEvent (req : CreateRequest) (events : List Event) (now : Int) :
    CreateResult × List Event :=
  match createEventResult req events now with
  | CreateResult.created e => (CreateResult.created e, events ++ [e])
  | r => (r, events)

/-! ## Event update (`updateEvent`, `eventController.js` lines 432-563). -/

/-- The request body of `updateEvent`; `none` models an absent (or falsy)
body field, so `if (field) event.field = field` becomes `Option.getD`. -/
structure UpdateRequest where
  eventTitle : Option JStr
  organizationName : Option JStr
  startDate : Option Int
  endDate : Option Int
  eventDate : Option Int
  eventTime : Option JStr
  location : Option JStr
  locationCoordinates : Option Coordinates
  expectedCapacity : Option Int
  bloodTypesNeeded : Option (List JStr)
  eventDescription : Option JStr
  eligibilityRequirements : Option (List JStr)
  contactEmail : Option JStr
  contactPhone : Option JStr
deriving Repr

/-- Outcome of `updateEvent`.  The invalid-date-string rejections are not
representable (dates are modelled as instants). -/
inductive UpdateResult
  | notOwner
  | immutable
  | endBeforeStart
  | badTimeFormat
  | endNotAfterStart
  | success (e : Event)
deriving Repr

/-- Lines 514-555 of `eventController.js`: apply the remaining field updates
to `cur`, default/fix up `endDate` when missing or before `eventDate`,
re-validate the time range and same-day ordering, then save.  `orig` is the
stored document, returned unchanged on the no-save error paths. -/
def finishUpdate (req : UpdateRequest) (orig cur : Event) : UpdateResult × Event :=
  let c1 := { cur with
    eventTime := (req.eventTime).getD cur.eventTime
    location := (req.location).getD cur.location
    locationCoordinates :=
      match req.locationCoordinates with
      | some c => some c
      | none => cur.locationCoordinates
    expectedCapacity := (req.expectedCapacity).getD cur.expectedCapacity
    bloodTypesNeeded := (req.bloodTypesNeeded).getD cur.bloodTypesNeeded
    eventDescription := (req.eventDescription).getD cur.eventDescription
    eligibilityRequirements := (req.eligibilityRequirements).getD cur.eligibilityRequirements
    contactEmail := (req.contactEmail).getD cur.contactEmail
    contactPhone := (req.contactPhone).getD cur.contactPhone }
  let c2 :=
    match c1.endDate with
    | none => { c1 with endDate := some c1.eventDate }
    | some d => if d < c1.eventDate then { c1 with endDate := some c1.eventDate } else c1
  match parseEventTimeRange c2.eventTime with
  | none => (UpdateResult.badTimeFormat, orig)
  | some (startMinutes, endMinutes) =>
    let startDay := setTime c2.eventDate 0 0 0 0
    let endDay := setTime (c2.endDate.getD c2.eventDate) 0 0 0 0
    if endDay = startDay ∧ endMinutes ≤ startMinutes then
      (UpdateResult.endNotAfterStart, orig)
    else (UpdateResult.success (preSave c2), preSave c2)

/-- `updateEvent` (`eventController.js` lines 432-563): owner-only, immutable
once `completed` or `cancelled`; applies title/organization and the start
date, validates a supplied end date against the (possibly updated) start,
then finishes via `finishUpdate`.  Returns the response and the stored
document (unchanged unless saved). -/
def updateEvent (req : UpdateRequest) (userId : Nat) (e : Event) : UpdateResult × Event :=
  if e.organizer ≠ userId then (UpdateResult.notOwner, e)
  else if e.status = EventStatus.completed ∨ e.status = EventStatus.cancelled then
    (UpdateResult.immutable, e)
  else
    let e1 := { e with
      eventTitle := (req.eventTitle).getD e.eventTitle
      organizationName := (req.organizationName).getD e.organizationName }
    let updatedStartDate := req.startDate <|> req.eventDate
    let e2 :=
      match updatedStartDate with
      | some d => { e1 with eventDate := d }
      | none => e1
    let comparisonStart := updatedStartDate.getD e2.eventDate
    match req.endDate with
    | some newEnd =>
      if newEnd < comparisonStart then (UpdateResult.endBeforeStart, e)
      else finishUpdate req e { e2 with endDate := some newEnd }
    | none => finishUpdate req e e2

/-! ## Profile summaries and their cache
(`src/unnamed/part_002`, the profile controller). -/

/-- The two key shapes of the profile cache, `donor:<id>` and
`organizer:<id>` (`part_002` lines 37-40, 46, 155): the template strings are
modelled as tag-id pairs. -/
structure CacheKey where
  tag : Role
  userId : Nat
deriving DecidableEq, Repr

/-- A cache entry: the computed summary plus its insertion timestamp
(`part_002` line 33). -/
structure CacheEntry (α : Type) where
  data : α
  timestamp : Int
deriving DecidableEq, Repr

/-- The in-memory `Map` backing the cache, as an association list. -/
abbrev ProfileCache (α : Type) := List (CacheKey × CacheEntry α)

/-- JS `Map.prototype.get`. -/
def cacheGet (key : CacheKey) (m : ProfileCache α) : Option (CacheEntry α) :=
  ((m.find? fun kv => kv.1 == key).map fun kv => kv.2)

/-- JS `Map.prototype.delete`. -/
def cacheDelete (key : CacheKey) (m : ProfileCache α) : ProfileCache α :=
  m.filter fun kv => kv.1 != key

/-- JS `Map.prototype.set` (replace or insert). -/
def cacheSet (key : CacheKey) (v : CacheEntry α) (m : ProfileCache α) : ProfileCache α :=
  cacheDelete key m ++ [(key, v)]

/-- `PROFILE_CACHE_TTL_MS = 2 * 60 * 1000` (`part_002` line 15). -/
def PROFILE_CACHE_TTL_MS : Int := 2 * 60 * 1000

/-- `getCachedProfileData` (`part_002` lines 19-29): a hit only while the
entry is younger than the TTL; a stale entry is deleted and reported as a
miss.  Returns the value and the possibly shrunk cache. -/
def getCachedProfileData (now : Int) (key : CacheKey) (m : ProfileCache α) :
    Option α × ProfileCache α :=
  match cacheGet key m with
  | none => (none, m)
  | some entry =>
    if PROFILE_CACHE_TTL_MS < now - entry.timestamp then (none, cacheDelete key m)
    else (some entry.data, m)

/-- `setCachedProfileData` (`part_002` lines 32-34). -/
def setCachedProfileData (now : Int) (key : CacheKey) (data : α) (m : ProfileCache α) :
    ProfileCache α :=
  cacheSet key ⟨data, now⟩ m

/-- `clearCachedProfileData` (`part_002` lines 37-40): drop both the donor
and the organizer entry of the identity, regardless of age. -/
def clearCachedProfileData (userId : Nat) (m : ProfileCache α) : ProfileCache α :=
  cacheDelete ⟨Role.organizer, userId⟩ (cacheDelete ⟨Role.donor, userId⟩ m)

/-- The shared shape of `buildOrganizerProfileData` / `buildDonorProfileData`
(`part_002` lines 45-149 and 154-219) at the cache level: return the cached
summary on a fresh hit, otherwise compute (the Mongo aggregation pipeline is
abstracted as the value `compute` it would produce), store and return it. -/
def buildProfileData (now : Int) (key : CacheKey) (compute : α) (m : ProfileCache α) :
    α × ProfileCache α :=
  match getCachedProfileData now key m with
  | (some d, m') => (d, m')
  | (none, m') => (compute, setCachedProfileData now key compute m')

/-- A user's location subdocument (`src/unnamed/part_005` lines 41-53);
coordinates are opaque numbers whose values no verified property inspects. -/
structure UserLocation where
  address : Option JStr
  lat : Option Int
  lng : Option Int
deriving DecidableEq, Repr

/-- The User document (`part_005`), restricted to the fields the profile
controller reads or writes.  `none` models an absent (or falsy) field. -/
structure User where
  id : Nat
  role : Role
  fullName : JStr
  email : JStr
  bloodType : Option JStr
  phone : Option JStr
  location : UserLocation
  organization : Option JStr
  memberSince : Option JStr
  isProfileComplete : Bool
deriving DecidableEq, Repr

/-- The request body of `updateProfile` (`part_002` lines 244-252); the
nested `location` carries its own optional parts. -/
structure ProfileUpdateRequest where
  fullName : Option JStr
  email : Option JStr
  bloodType : Option JStr
  phone : Option JStr
  locationAddress : Option JStr
  locationLat : Option Int
  locationLng : Option Int
  locationProvided : Bool
  organization : Option JStr
  memberSince : Option JStr
deriving Repr

/-- Outcome of `updateProfile` (`part_002` lines 243-320). -/
inductive ProfileUpdateResult
  | userNotFound
  | bloodTypeNotAllowed
  | organizationNotAllowed
  | phoneTaken
  | emailChangeRejected
  | success
deriving DecidableEq, Repr

/-- The state `updateProfile` acts on: the user collection plus the module's
in-memory profile cache. -/
structure AppState (α : Type) where
  users : List User
  cache : ProfileCache α

/-- Replace the stored user with the saved document (`await user.save()`). -/
def saveUser (users : List User) (u : User) : List User :=
  users.map fun v => if v.id == u.id then u else v

/-- `hasValidLocation` (`part_002` lines 304-307): an address plus numeric
coordinates on both axes. -/
def hasValidLocation (u : User) : Bool :=
  (u.location.address).isSome ∧ (u.location.lat).isSome ∧ (u.location.lng).isSome

/-- `updateProfile` (`part_002` lines 243-320): role-gates `bloodType` and
`organization`/`memberSince`, rejects a phone number held by another user and
any email change, merges the fields (the `location` merge keeps old
components where the request omits them), recomputes `isProfileComplete`, and
saves.  The profile cache is *not* touched on any path. -/
def updateProfile (req : ProfileUpdateRequest) (uid : Nat) (st : AppState α) :
    ProfileUpdateResult × AppState α :=
  match st.users.find? (fun u => u.id == uid) with
  | none => (ProfileUpdateResult.userNotFound, st)
  | some user =>
    if user.role ≠ Role.donor ∧ (req.bloodType).isSome then
      (ProfileUpdateResult.bloodTypeNotAllowed, st)
    else if user.role ≠ Role.organizer ∧
        ((req.organization).isSome ∨ (req.memberSince).isSome) then
      (ProfileUpdateResult.organizationNotAllowed, st)
    else if (match req.phone with
        | some p => user.phone != some p &&
            st.users.any fun v => v.phone == some p && v.id != uid
        | none => false : Bool) then
      (ProfileUpdateResult.phoneTaken, st)
    else if (match req.email with
        | some em => em != user.email
        | none => false : Bool) then
      (ProfileUpdateResult.emailChangeRejected, st)
    else
      let u1 := { user with
        fullName := (req.fullName).getD user.fullName
        bloodType := (req.bloodType) <|> user.bloodType
        phone := (req.phone) <|> user.phone
        organization := (req.organization) <|> user.organization
        memberSince := (req.memberSince) <|> user.memberSince }
      let u2 :=
        if req.locationProvided then
          { u1 with location :=
            { address := (req.locationAddress) <|> user.location.address
              lat := (req.locationLat) <|> user.location.lat
              lng := (req.locationLng) <|> user.location.lng } }
        else u1
      let u3 :=
        match u2.role with
        | Role.donor =>
          { u2 with isProfileComplete := (u2.bloodType).isSome ∧ hasValidLocation u2 }
        | Role.organizer =>
          { u2 with isProfileComplete :=
              (u2.organization).isSome ∧ (u2.memberSince).isSome ∧ hasValidLocation u2 }
      (ProfileUpdateResult.success, { st with users := saveUser st.users u3 })

/-! ## Concrete instances used by the claim theorems -/

/-- Concrete event for C1: one attendee record for donor 1, already
cancelled; capacity far from full; count invariant holds (0 active). -/
def exC1Event : Event := { baseEvent with
  attendees := [⟨1, 50, AttendeeStatus.cancelled⟩]
  currentAttendees := 0 }

/-- Concrete event for the C3 counterexample: the start component
`"9:00 AM"` parses but the end component `"garbage"` does not. -/
def exC3Event : Event := { baseEvent with
  eventDate := 20148 * 86400000
  endDate := some (20148 * 86400000)
  eventTime := js "9:00 AM - garbage" }

/-- Concrete event for the C3 witness: a time text no side of which parses. -/
def exC3FallbackEvent : Event := { baseEvent with eventTime := js "whenever" }

/-- The creation request for the C4 witness: a lower-case variant of the
title of `baseEvent`, otherwise valid, dated after the existing event. -/
def exC4Req : CreateRequest where
  userRole := Role.organizer
  userId := 11
  eventTitle := js "community drive"
  organizationName := js "Helpers"
  startDate := some (20150 * 86400000)
  endDate := none
  legacyEventDate := none
  eventTime := js "9:00 AM - 5:00 PM"
  location := js "Hall"
  locationCoordinates := none
  expectedCapacity := 10
  bloodTypesNeeded := some [js "O+"]
  eventDescription := js "drive"
  eligibilityRequirements := none
  contactEmail := js "x@y.z"
  contactPhone := js "555"

/-- Concrete event for C5: donor 1's only record is already cancelled. -/
def exC5Event : Event := { baseEvent with
  attendees := [⟨1, 50, AttendeeStatus.cancelled⟩]
  currentAttendees := 0 }

/-- Concrete event for C6: spans 2025-03-01 (epoch day 20148) to 2025-03-02
with the midnight-crossing range `"10:00 PM - 2:00 AM"`. -/
def exC6Event : Event := { baseEvent with
  eventDate := 20148 * 86400000
  endDate := some (20149 * 86400000)
  eventTime := js "10:00 PM - 2:00 AM" }

/-- Concrete donor, state and request for the C7 counterexample: the cache
holds a fresh summary (the value 0) for donor 1, inserted at time 1000. -/
def exC7User : User where
  id := 1
  role := Role.donor
  fullName := js "Ann"
  email := js "a@b.c"
  bloodType := some (js "O+")
  phone := none
  location := ⟨none, none, none⟩
  organization := none
  memberSince := none
  isProfileComplete := false

def exC7State : AppState Nat where
  users := [exC7User]
  cache := setCachedProfileData 1000 ⟨Role.donor, 1⟩ 0 []

def exC7Req : ProfileUpdateRequest where
  fullName := some (js "Anne")
  email := none
  bloodType := none
  phone := none
  locationAddress := none
  locationLat := none
  locationLng := none
  locationProvided := false
  organization := none
  memberSince := none

/-! ## Helper lemmas -/

/-- The cached-count invariant: the stored `currentAttendees` equals the
number of `registered`/`attended` roster records. -/
def countInvariant (e : Event) : Prop :=
  e.currentAttendees = countActiveAttendees e.attendees

instance (e : Event) : Decidable (countInvariant e) :=
  inferInstanceAs (Decidable (_ = _))

theorem attendees_preSave (e : Event) : (preSave e).attendees = e.attendees := by
  unfold preSave
  split <;> rfl

theorem countInvariant_preSave (e : Event) : countInvariant (preSave e) := by
  unfold countInvariant preSave
  split <;> rfl

theorem findIdx?_none_not_mem {p : α → Bool} {l : List α}
    (h : l.findIdx? p = none) : ∀ a ∈ l, p a = false := by
  rw [List.findIdx?_eq_none_iff] at h
  exact h

theorem findIdx?_some_exists_mem {p : α → Bool} {l : List α} {i : Nat}
    (h : l.findIdx? p = some i) : ∃ a ∈ l, p a = true := by
  have hs : (l.findIdx? p).isSome = l.any p := List.findIdx?_isSome
  rw [h] at hs
  rcases List.any_eq_true.mp hs.symm with ⟨a, ha, hpa⟩
  exact ⟨a, ha, hpa⟩

theorem cacheGet_cacheDelete_self {α : Type} (k : CacheKey) (m : ProfileCache α) :
    cacheGet k (cacheDelete k m) = none := by
  induction m with
  | nil => rfl
  | cons kv rest ih =>
    simp only [cacheDelete, cacheGet, List.filter_cons] at ih ⊢
    by_cases h : kv.1 = k
    · simp [h]
    · simp [List.find?_cons, h]

theorem cacheGet_cacheDelete_ne {α : Type} (k k' : CacheKey) (m : ProfileCache α)
    (hne : k ≠ k') : cacheGet k (cacheDelete k' m) = cacheGet k m := by
  induction m with
  | nil => rfl
  | cons kv rest ih =>
    simp only [cacheDelete, cacheGet, List.filter_cons] at ih ⊢
    have hne' : k' ≠ k := fun hkk => hne hkk.symm
    by_cases h : kv.1 = k'
    · simpa [List.find?_cons, h, hne'] using ih
    · by_cases hk : kv.1 = k
      · simp [List.find?_cons, h, hk, hne]
      · simpa [List.find?_cons, h, hk] using ih


/-! ## Claim theorems -/

/-- C10: the duplicate-title scan inside `createEvent` recomputes the status
of matched events in memory only and never persists it: whatever the outcome,
the stored event list after `createEvent` is the old list, possibly extended
by the one newly created document — every pre-existing event, its stored
status included, is unchanged. -/
theorem createEvent_preserves_existing_events
    (req : CreateRequest) (events : List Event) (now : Int) :
    ∃ tail, (createEvent req events now).2 = events ++ tail := by
  unfold createEvent
  cases hr : createEventResult req events now
  case created e => exact ⟨[e], rfl⟩
  all_goals exact ⟨[], by simp⟩

/-- C2: every roster-persisting operation (register, cancel a registration,
cancel the event, update the event) writes through the `pre('save')` hook,
so the stored `currentAttendees` equals the number of attendee records with
status `registered` or `attended` after each of them. -/
theorem count_matches_roster_after_save :
    (∀ (now : Int) (role : Role) (uid : Nat) (e e' : Event),
        registerForEvent now role uid e = (RegResult.success, e') → countInvariant e')
    ∧ (∀ (uid : Nat) (e e' : Event),
        cancelRegistration uid e = (CancelRegResult.success, e') → countInvariant e')
    ∧ (∀ (role : Role) (uid : Nat) (e e' : Event),
        cancelEvent role uid e = (CancelEventResult.success, e') → countInvariant e')
    ∧ (∀ (req : UpdateRequest) (uid : Nat) (e x e' : Event),
        updateEvent req uid e = (UpdateResult.success x, e') → countInvariant e') := by
  refine ⟨?_, ?_, ?_, ?_⟩
  · intro now role uid e e' h
    unfold registerForEvent at h
    split at h
    · simp at h
    · split at h
      · simp at h
      · split at h
        · simp at h
        · injection h with h1 h2
          subst h2
          exact countInvariant_preSave _
  · intro uid e e' h
    unfold cancelRegistration at h
    split at h
    · simp at h
    · injection h with h1 h2
      subst h2
      exact countInvariant_preSave _
  · intro role uid e e' h
    unfold cancelEvent at h
    split at h
    · simp at h
    · split at h
      · simp at h
      · split at h
        · simp at h
        · split at h
          · simp at h
          · injection h with h1 h2
            subst h2
            exact countInvariant_preSave _
  · intro req uid e x e' h
    have hfin : ∀ (orig cur : Event) (y e'' : Event),
        finishUpdate req orig cur = (UpdateResult.success y, e'') → countInvariant e'' := by
      intro orig cur y e'' hf
      simp only [finishUpdate] at hf
      split at hf
      · simp at hf
      · split at hf
        · simp at hf
        · injection hf with h1 h2
          subst h2
          exact countInvariant_preSave _
    simp only [updateEvent] at h
    split at h
    · simp at h
    · split at h
      · simp at h
      · split at h
        · split at h
          · simp at h
          · exact hfin _ _ _ _ h
        · exact hfin _ _ _ _ h

/-- Witness for C2: a concrete successful registration whose saved event
satisfies the count invariant. -/
theorem count_matches_roster_witness :
    (registerForEvent 5 Role.donor 1 baseEvent).1 = RegResult.success ∧
    countInvariant (registerForEvent 5 Role.donor 1 baseEvent).2 :=
  ⟨by decide,
    count_matches_roster_after_save.1 5 Role.donor 1 baseEvent
      (registerForEvent 5 Role.donor 1 baseEvent).2 (by decide)⟩


/-- C6: when both components of the time-range text parse, `startMinutes` is
anchored to `eventDate` and `endMinutes` to `endDate` (or `eventDate` when
absent) — the anchoring is the `parseTimePortion` calls in the hypotheses —
and if the resulting end instant is not after the start instant one day is
added to it; the status then compares `now` against those two instants. -/
theorem both_sides_parsed_midnight_crossing (e : Event) (now sv ev : Int)
    (hc : e.status ≠ EventStatus.cancelled)
    (ht : (jsTrim e.eventTime).isEmpty = false)
    (hs : parseTimePortion e.eventDate
        (((splitOnChar '-' e.eventTime).map jsTrim)[0]?) = some sv)
    (he : parseTimePortion (e.endDate.getD e.eventDate)
        (((splitOnChar '-' e.eventTime).map jsTrim)[1]?) = some ev) :
    updateStatus now e =
      if now < sv then EventStatus.upcoming
      else if sv ≤ now ∧ now ≤ (if ev ≤ sv then ev + msPerDay else ev) then
        EventStatus.ongoing
      else EventStatus.completed := by
  have hti : timeInstants e =
      (some sv, some (if ev ≤ sv then ev + msPerDay else ev)) := by
    simp only [timeInstants, ht, hs, he]
    split
    · simp_all
    · split <;> simp_all
  unfold updateStatus
  simp [hc, hti]

/-- Witness for C6: the spec's own example — start 2025-03-01, end
2025-03-02, range `"10:00 PM - 2:00 AM"`, evaluated at 2025-03-02 01:00 —
resolves to `ongoing`. -/
theorem both_sides_parsed_witness :
    updateStatus (20149 * 86400000 + 3600000) exC6Event = EventStatus.ongoing := by
  have h := both_sides_parsed_midnight_crossing exC6Event (20149 * 86400000 + 3600000)
    (20148 * 86400000 + 22 * 3600000) (20149 * 86400000 + 2 * 3600000)
    (by decide) (by decide) (by decide) (by decide)
  rw [h]
  decide


/-- C3 counterexample: this non-cancelled event has an unparseable *end*
component, and `now` (08:00 on the event day) lies between 00:00 of the
start date and 23:59:59.999 of the end date, so the claimed date-only
fallback would yield `ongoing`; the code instead anchors the parsed start
side and returns `upcoming`. -/
theorem dateOnly_fallback_counterexample :
    exC3Event.status ≠ EventStatus.cancelled ∧
    parseTimePortion (exC3Event.endDate.getD exC3Event.eventDate)
      (((splitOnChar '-' exC3Event.eventTime).map jsTrim)[1]?) = none ∧
    ¬((20148 * 86400000 + 8 * 3600000 : Int) < setTime exC3Event.eventDate 0 0 0 0) ∧
    ¬(setTime (exC3Event.endDate.getD exC3Event.eventDate) 23 59 59 999 <
        (20148 * 86400000 + 8 * 3600000 : Int)) ∧
    updateStatus (20148 * 86400000 + 8 * 3600000) exC3Event = EventStatus.upcoming := by
  decide

/-- C3 amended: the date-only fallback applies only when *both* sides of the
time range fail to parse (equivalently, when no instant at all is derived):
then the status is `upcoming` before 00:00 of the start date, `completed`
after 23:59:59.999 of the end date, and `ongoing` otherwise. -/
theorem dateOnly_fallback_when_both_unparseable (e : Event) (now : Int)
    (hc : e.status ≠ EventStatus.cancelled)
    (hti : timeInstants e = (none, none)) :
    updateStatus now e =
      if now < setTime e.eventDate 0 0 0 0 then EventStatus.upcoming
      else if setTime (e.endDate.getD e.eventDate) 23 59 59 999 < now then
        EventStatus.completed
      else EventStatus.ongoing := by
  unfold updateStatus
  simp [hc, hti]


/-- Witness for the amended C3: with both sides unparseable and `now` inside
the date window, the fallback yields `ongoing`. -/
theorem dateOnly_fallback_witness :
    updateStatus (20148 * 86400000 + 8 * 3600000) exC3FallbackEvent =
      EventStatus.ongoing := by
  have h := dateOnly_fallback_when_both_unparseable exC3FallbackEvent
    (20148 * 86400000 + 8 * 3600000) (by decide) (by decide)
  rw [h]
  decide

theorem adjustHour_bounds (md : JStr) (h : Int) (hlo : 1 ≤ h) (hhi : h ≤ 12) :
    0 ≤ adjustHour md h ∧ adjustHour md h ≤ 23 := by
  simp only [adjustHour]
  split_ifs <;> omega

theorem parseTimeString_eq_of_components (t : JStr) (h m : Int) (md : JStr)
    (hc : readTimeComponents t = some (h, m, md)) :
    parseTimeStringToMinutes t = some (adjustHour md h * 60 + m) := by
  unfold parseTimeStringToMinutes
  rw [hc]

/-- C8 counterexample: the parser succeeds on an out-of-range hour component
and returns a value outside `[0, 1439]`. -/
theorem parser_range_counterexample :
    parseEventTimeRange (js "9:00 AM - 25:00 PM") = some (540, 1500) ∧
    ¬((1500 : Int) ≤ 1439) := by
  decide

/-- C8 amended: the parser performs no range validation, so its output lies
in `[0, 1439]` only when each side's numeric components are a well-formed
12-hour time (hour in `[1, 12]`, minute in `[0, 59]`); under that restriction
both `startMinutes` and `endMinutes` are in `[0, 1439]`. -/
theorem parser_output_range (s p1 p2 : JStr) (a b h1 m1 h2 m2 : Int) (md1 md2 : JStr)
    (hsplit : splitOnChar '-' s = [p1, p2])
    (hc1 : readTimeComponents p1 = some (h1, m1, md1))
    (hc2 : readTimeComponents p2 = some (h2, m2, md2))
    (hh1 : 1 ≤ h1) (hh1' : h1 ≤ 12) (hm1 : 0 ≤ m1) (hm1' : m1 ≤ 59)
    (hh2 : 1 ≤ h2) (hh2' : h2 ≤ 12) (hm2 : 0 ≤ m2) (hm2' : m2 ≤ 59)
    (hp : parseEventTimeRange s = some (a, b)) :
    0 ≤ a ∧ a ≤ 1439 ∧ 0 ≤ b ∧ b ≤ 1439 := by
  unfold parseEventTimeRange at hp
  rw [hsplit] at hp
  simp only [parseTimeString_eq_of_components p1 h1 m1 md1 hc1,
    parseTimeString_eq_of_components p2 h2 m2 md2 hc2,
    Option.some.injEq, Prod.mk.injEq] at hp
  obtain ⟨ha, hb⟩ := hp
  have b1 := adjustHour_bounds md1 h1 hh1 hh1'
  have b2 := adjustHour_bounds md2 h2 hh2 hh2'
  omega

/-- Witness for the amended C8: a well-formed range is parsed into bounded
minute offsets. -/
theorem parser_output_range_witness :
    parseEventTimeRange (js "9:00 AM - 5:30 PM") = some (540, 1050) ∧
    (0 ≤ (540 : Int) ∧ (540 : Int) ≤ 1439 ∧ 0 ≤ (1050 : Int) ∧ (1050 : Int) ≤ 1439) :=
  ⟨by decide,
    parser_output_range (js "9:00 AM - 5:30 PM") (js "9:00 AM ") (js " 5:30 PM")
      540 1050 9 0 5 30 (js "AM") (js "PM") (by decide) (by decide) (by decide)
      (by decide) (by decide) (by decide) (by decide) (by decide) (by decide)
      (by decide) (by decide) (by decide)⟩

/-- C9 counterexample: a present but invalid AM/PM marker (here `"XX"` and
`"YY"`) is *not* rejected — the parser returns minute values for it. -/
theorem parser_malformed_counterexample :
    parseEventTimeRange (js "9:00 XX - 5:00 YY") = some (540, 300) := by
  decide

/-- C9 amended: the parser (a total function — it cannot raise) fails on a
dash-segment count other than two, on a missing second whitespace token (no
marker position at all), and on a hour or minute component `parseInt` cannot
read; a *present but invalid* marker, however, is accepted and treated as no
adjustment. -/
theorem parser_rejects_malformed (s t : JStr) :
    ((splitOnChar '-' s).length ≠ 2 → parseEventTimeRange s = none)
    ∧ ((splitWs (jsTrim t)).length < 2 → parseTimeStringToMinutes t = none)
    ∧ (∀ timePart modifierRaw, timeTokens t = some (timePart, modifierRaw) →
        jsParseInt (((splitOnChar ':' timePart)[0]?).getD []) = none →
        parseTimeStringToMinutes t = none)
    ∧ (∀ timePart modifierRaw, timeTokens t = some (timePart, modifierRaw) →
        jsParseInt (((splitOnChar ':' timePart)[1]?).getD ['0']) = none →
        parseTimeStringToMinutes t = none) := by
  refine ⟨?_, ?_, ?_, ?_⟩
  · intro h
    unfold parseEventTimeRange
    split
    · rename_i p1 p2 heq
      rw [heq] at h
      simp at h
    · rfl
  · intro h
    have htk : timeTokens t = none := by
      simp only [timeTokens]
      split
      · rfl
      · have h1 : (splitWs (jsTrim t))[1]? = none := by
          apply List.getElem?_eq_none
          omega
        split
        · rename_i timePart modifierRaw heq0 heq1
          rw [h1] at heq1
          cases heq1
        · rfl
    have hrc : readTimeComponents t = none := by
      unfold readTimeComponents
      rw [htk]
    unfold parseTimeStringToMinutes
    rw [hrc]
  · intro timePart modifierRaw htok hhour
    have hrc : readTimeComponents t = none := by
      unfold readTimeComponents
      rw [htok]
      cases hm2 : jsParseInt (((splitOnChar ':' timePart)[1]?).getD ['0']) <;>
        simp [hhour, hm2]
    unfold parseTimeStringToMinutes
    rw [hrc]
  · intro timePart modifierRaw htok hmin
    have hrc : readTimeComponents t = none := by
      unfold readTimeComponents
      rw [htok]
      cases hh : jsParseInt (((splitOnChar ':' timePart)[0]?).getD []) <;>
        simp [hmin, hh]
    unfold parseTimeStringToMinutes
    rw [hrc]

/-- Witness for the amended C9: a missing marker and a non-numeric hour are
both rejected. -/
theorem parser_rejects_malformed_witness :
    parseEventTimeRange (js "9:00 AM") = none ∧
    parseTimeStringToMinutes (js "ab:10 PM") = none :=
  ⟨(parser_rejects_malformed (js "9:00 AM") (js "")).1 (by decide),
    (parser_rejects_malformed (js "") (js "ab:10 PM")).2.2.1
      (js "ab:10") (js "PM") (by decide) (by decide)⟩


/-- C1 counterexample: the event is not full and donor 1 has no
*non-cancelled* record (their only record is cancelled), so the claim says
re-registration succeeds; the code rejects it as already-registered because
the roster check ignores record status. -/
theorem register_after_cancel_counterexample :
    exC1Event.currentAttendees < exC1Event.expectedCapacity ∧
    countActiveAttendees exC1Event.attendees = 0 ∧
    exC1Event.attendees ≠ [] ∧
    (registerForEvent 100 Role.donor 1 exC1Event).1 = RegResult.alreadyRegistered := by
  decide

/-- C1 amended: for a donor request, registration succeeds iff the event is
not full *and no attendee record of any status* exists for that donor; on
success a `registered` record with `registeredAt = now` is appended.  A
cancelled registration therefore still blocks re-registration — history is
additive only because a blocked donor never reaches the append. -/
theorem register_success_iff (now : Int) (uid : Nat) (e : Event) :
    ((registerForEvent now Role.donor uid e).1 = RegResult.success ↔
      (e.currentAttendees < e.expectedCapacity ∧ ∀ a ∈ e.attendees, a.donor ≠ uid))
    ∧ ((registerForEvent now Role.donor uid e).1 = RegResult.success →
      ((registerForEvent now Role.donor uid e).2).attendees =
        e.attendees ++ [⟨uid, now, AttendeeStatus.registered⟩]) := by
  by_cases hf : e.isFull
  · have hres : registerForEvent now Role.donor uid e = (RegResult.eventFull, e) := by
      unfold registerForEvent
      rw [if_neg (by simp), if_pos hf]
    rw [hres]
    refine ⟨⟨fun h => by simp at h, fun h => ?_⟩, fun h => by simp at h⟩
    exfalso
    unfold Event.isFull at hf
    obtain ⟨h1, _⟩ := h
    omega
  · by_cases ha : e.attendees.any (fun a => a.donor == uid)
    · have hres : registerForEvent now Role.donor uid e =
          (RegResult.alreadyRegistered, e) := by
        unfold registerForEvent
        rw [if_neg (by simp), if_neg hf, if_pos ha]
      rw [hres]
      refine ⟨⟨fun h => by simp at h, fun h => ?_⟩, fun h => by simp at h⟩
      exfalso
      rcases List.any_eq_true.mp ha with ⟨a, hmem, hpa⟩
      have heq : a.donor = uid := by simpa using hpa
      exact absurd heq (h.2 a hmem)
    · have hres : registerForEvent now Role.donor uid e =
          (RegResult.success,
            preSave { e with
              attendees := e.attendees ++ [⟨uid, now, AttendeeStatus.registered⟩] }) := by
        unfold registerForEvent
        rw [if_neg (by simp), if_neg hf, if_neg ha]
      rw [hres]
      have ha' : ∀ a ∈ e.attendees, a.donor ≠ uid := by
        intro a hmem heq
        exact ha (List.any_eq_true.mpr ⟨a, hmem, by simp [heq]⟩)
      have hlt : e.currentAttendees < e.expectedCapacity := by
        unfold Event.isFull at hf
        omega
      refine ⟨⟨fun _ => ⟨hlt, ha'⟩, fun _ => rfl⟩, fun _ => ?_⟩
      rw [attendees_preSave]

/-- Witness for the amended C1: a donor with no prior record registers
successfully on a non-full event. -/
theorem register_success_iff_witness :
    (registerForEvent 7 Role.donor 2 baseEvent).1 = RegResult.success :=
  (register_success_iff 7 2 baseEvent).1.mpr ⟨by decide, by decide⟩


/-- C5 counterexample: cancelling the already-cancelled registration of
donor 1 is *accepted* (the record is found, re-marked and saved); the claim
says it must be rejected as a conflict. -/
theorem cancel_already_cancelled_counterexample :
    exC5Event.attendees = [⟨1, 50, AttendeeStatus.cancelled⟩] ∧
    (cancelRegistration 1 exC5Event).1 = CancelRegResult.success := by
  decide

/-- C5 amended: cancelling a registration succeeds iff *any* attendee record
for that donor exists, whatever its current status — a duplicate
cancellation of an already-cancelled registration succeeds idempotently
rather than being rejected; only when no record exists is the request
rejected, and on that rejection the event is unchanged. -/
theorem cancelRegistration_success_iff (uid : Nat) (e : Event) :
    ((cancelRegistration uid e).1 = CancelRegResult.success ↔
      ∃ a ∈ e.attendees, a.donor = uid)
    ∧ ((cancelRegistration uid e).1 ≠ CancelRegResult.success →
      (cancelRegistration uid e).2 = e) := by
  cases hidx : e.attendees.findIdx? (fun a => a.donor == uid) with
  | none =>
    have hres : cancelRegistration uid e = (CancelRegResult.notRegistered, e) := by
      unfold cancelRegistration
      rw [hidx]
    rw [hres]
    refine ⟨⟨fun h => by simp at h, fun h => ?_⟩, fun _ => rfl⟩
    rcases h with ⟨a, hmem, heq⟩
    have := findIdx?_none_not_mem hidx a hmem
    simp [heq] at this
  | some i =>
    have hres : cancelRegistration uid e =
        (CancelRegResult.success, preSave { e with
          attendees := cancelAttendeeAt e.attendees i }) := by
      unfold cancelRegistration
      rw [hidx]
    rw [hres]
    refine ⟨⟨fun _ => ?_, fun _ => rfl⟩, fun h => absurd rfl h⟩
    rcases findIdx?_some_exists_mem hidx with ⟨a, hmem, hpa⟩
    exact ⟨a, hmem, by simpa using hpa⟩

/-- Witness for the amended C5: cancelling with an existing (already
cancelled) record succeeds. -/
theorem cancelRegistration_success_iff_witness :
    (cancelRegistration 1 exC5Event).1 = CancelRegResult.success :=
  (cancelRegistration_success_iff 1 exC5Event).1.mpr
    ⟨⟨1, 50, AttendeeStatus.cancelled⟩, by decide, rfl⟩

theorem hasActiveDuplicate_iff (t : JStr) (events : List Event) (now : Int) :
    hasActiveDuplicate t events now = true ↔
      ∃ e ∈ events, titleMatches e.eventTitle t = true ∧
        (updateStatus now e = EventStatus.upcoming ∨
         updateStatus now e = EventStatus.ongoing) := by
  unfold hasActiveDuplicate
  constructor
  · intro h
    rcases List.any_eq_true.mp h with ⟨e, hmem, hpe⟩
    rcases List.mem_filter.mp hmem with ⟨hmem', hmatch⟩
    exact ⟨e, hmem', hmatch, by simpa using hpe⟩
  · rintro ⟨e, hmem, hmatch, hstat⟩
    exact List.any_eq_true.mpr
      ⟨e, List.mem_filter.mpr ⟨hmem, hmatch⟩, by simpa using hstat⟩

/-- C4: with otherwise-valid input (organizer role, all required fields
present, valid dates/times — the explicit hypotheses), creation is rejected
as a duplicate-title conflict *iff* some stored event whose title equals the
request title under case-insensitive whole-string comparison has a freshly
recomputed (`updateStatus`) status of `upcoming` or `ongoing`; `completed` or
`cancelled` matches never block. -/
theorem duplicate_title_conflict_iff (req : CreateRequest) (events : List Event)
    (now sd ed sm em : Int) (bts : List JStr)
    (hrole : req.userRole = Role.organizer)
    (htitle : req.eventTitle.isEmpty = false)
    (horg : req.organizationName.isEmpty = false)
    (hsd : (req.startDate <|> req.legacyEventDate) = some sd)
    (hed : (req.endDate <|> (req.startDate <|> req.legacyEventDate)) = some ed)
    (htime : req.eventTime.isEmpty = false)
    (hloc : req.location.isEmpty = false)
    (hcap : req.expectedCapacity ≠ 0)
    (hbt : req.bloodTypesNeeded = some bts)
    (hbts : bts.isEmpty = false)
    (hdesc : req.eventDescription.isEmpty = false)
    (hmail : req.contactEmail.isEmpty = false)
    (hphone : req.contactPhone.isEmpty = false)
    (hpast : ¬(setTime sd 0 0 0 0 < setTime now 0 0 0 0))
    (horder : ¬(setTime ed 0 0 0 0 < setTime sd 0 0 0 0))
    (hparse : parseEventTimeRange req.eventTime = some (sm, em))
    (hsame : ¬(setTime ed 0 0 0 0 = setTime sd 0 0 0 0 ∧ em ≤ sm)) :
    (createEvent req events now).1 = CreateResult.duplicateTitle ↔
      ∃ e ∈ events, titleMatches e.eventTitle req.eventTitle = true ∧
        (updateStatus now e = EventStatus.upcoming ∨
         updateStatus now e = EventStatus.ongoing) := by
  have hed' : (req.endDate <|> some sd) = some ed := by
    rw [← hsd]
    exact hed
  by_cases hdup : hasActiveDuplicate req.eventTitle events now
  · have hres : createEventResult req events now = CreateResult.duplicateTitle := by
      simp only [createEventResult, hrole, hsd, hed', hbt]
      simp [htitle, horg, htime, hloc, hcap, hdesc, hmail, hphone, hbts, hdup]
    have hc : (createEvent req events now).1 = CreateResult.duplicateTitle := by
      unfold createEvent
      rw [hres]
    exact ⟨fun _ => (hasActiveDuplicate_iff _ _ _).mp hdup, fun _ => hc⟩
  · have hres : createEventResult req events now =
        CreateResult.created (newEventOf req sd ed) := by
      simp only [createEventResult, hrole, hsd, hed', hbt]
      simp [htitle, horg, htime, hloc, hcap, hdesc, hmail, hphone, hbts, hdup,
        hpast, horder, hparse, hsame]
    have hc : (createEvent req events now).1 =
        CreateResult.created (newEventOf req sd ed) := by
      unfold createEvent
      rw [hres]
    constructor
    · intro h
      rw [hc] at h
      cases h
    · intro hex
      exact absurd ((hasActiveDuplicate_iff _ _ _).mpr hex) hdup


/-- Witness for C4: with the stored `"Community Drive"` event `upcoming` at
evaluation time, creating `"community drive"` is rejected as a duplicate. -/
theorem duplicate_title_conflict_witness :
    (createEvent exC4Req [baseEvent] (20147 * 86400000)).1 =
      CreateResult.duplicateTitle :=
  (duplicate_title_conflict_iff exC4Req [baseEvent] (20147 * 86400000)
      (20150 * 86400000) (20150 * 86400000) 540 1020 [js "O+"]
      (by decide) (by decide) (by decide) (by decide) (by decide) (by decide)
      (by decide) (by decide) (by decide) (by decide) (by decide) (by decide)
      (by decide) (by decide) (by decide) (by decide) (by decide)).mpr
    ⟨baseEvent, by decide, by decide, Or.inl (by decide)⟩


/-- C7 counterexample: a successful `updateProfile` for donor 1 leaves the
donor's cached summary in place, so a profile lookup 1 second later (well
inside the TTL) is a cache *hit* returning the pre-mutation summary 0
instead of recomputing (which would give 7) — the claimed immediate
invalidation does not happen. -/
theorem profile_cache_counterexample :
    (updateProfile exC7Req 1 exC7State).1 = ProfileUpdateResult.success ∧
    (2000 : Int) - 1000 ≤ PROFILE_CACHE_TTL_MS ∧
    (buildProfileData 2000 ⟨Role.donor, 1⟩ 7
        ((updateProfile exC7Req 1 exC7State).2.cache)).1 = 0 ∧
    (0 : Nat) ≠ 7 := by
  decide

/-- C7 amended: the module's `clearCachedProfileData` does remove both cache
entries of an identity bypassing the TTL, but *no profile-mutating action
invokes it*: `updateProfile` returns the cache bit-for-bit unchanged on every
path, so entries for a mutated identity lapse only via the TTL. -/
theorem profile_cache_invalidation_behavior {α : Type}
    (req : ProfileUpdateRequest) (uid : Nat) (st : AppState α)
    (now : Int) (m : ProfileCache α) (u : Nat) :
    ((updateProfile req uid st).2.cache = st.cache)
    ∧ ((getCachedProfileData now ⟨Role.donor, u⟩ (clearCachedProfileData u m)).1 = none)
    ∧ ((getCachedProfileData now ⟨Role.organizer, u⟩ (clearCachedProfileData u m)).1 =
        none) := by
  refine ⟨?_, ?_, ?_⟩
  · unfold updateProfile
    split
    · rfl
    · split
      · rfl
      · split
        · rfl
        · split
          · rfl
          · split
            · rfl
            · rfl
  · have h1 : cacheGet ⟨Role.donor, u⟩ (clearCachedProfileData u m) = none := by
      unfold clearCachedProfileData
      rw [cacheGet_cacheDelete_ne _ _ _ (by simp), cacheGet_cacheDelete_self]
    unfold getCachedProfileData
    rw [h1]
  · have h2 : cacheGet ⟨Role.organizer, u⟩ (clearCachedProfileData u m) = none := by
      unfold clearCachedProfileData
      rw [cacheGet_cacheDelete_self]
    unfold getCachedProfileData
    rw [h2]
